import Mathlib

/-! # Transaction record DAO (package example, file example/txrecord.go)

A shallow embedding of the persistence shim for the transaction record table and
the properties of it that can be stated over that embedding.

Modelling conventions.

* The object-relational mapper (gorm) is an external library.  Its handle type,
  its contexts, the database contents and its error values are type parameters,
  and the five library calls the file makes (WithContext, Model, Scan, Create,
  Updates) together with the Error field of a handle are the fields of the
  structure `Gorm`.  The general theorems quantify over an arbitrary `Gorm`; a small
  in-memory instance serves to evaluate the methods on concrete inputs.
* A library call that is handed a pointer may write through it.  Such a call is a
  function returning an `Exec`: the handle the call returns, the value behind the
  pointer afterwards, and the database afterwards.
* Go integers: `int` is an `Int`, `uint` is a `Nat`.  No arithmetic is performed on
  either in this file, so no wrap-around can occur.
* Pointers to records are assumed non-nil and are represented by the record value;
  a nil slice and an empty slice are both the empty list.
* Two return statements pair a plain operand with a call that writes to that
  operand: `return records, db.Scan(&records).Error` (line 47) and
  `return record.ID, ... .Create(record).Error` (line 51).  The compiled program
  runs the call first and reads the operand afterwards; that is the order
  `EvalOrder.callFirst`, and the statements about what these two methods return
  are made for it.  The other order the Go language specification leaves open,
  `EvalOrder.operandFirst`, is kept as a second branch, and every property that
  does not depend on the order is proved for both.
-/

namespace Example

/-! ## Lifecycle status constants (txrecord.go lines 9 to 13) -/

/-- Status constant of a transaction that is still open (line 10). -/
def HangingStatus : Int := 1

/-- Status constant of a transaction that succeeded (line 11). -/
def SuccessfulStatus : Int := 2

/-- Status constant of a transaction that failed (line 12). -/
def FailedStatus : Int := 3

/-! ## Records (txrecord.go lines 15 to 28) -/

/-- The struct gorm.Model that TXRecordPO embeds.  It is declared by the gorm
library, not by this repository: a primary key of type uint and three time
stamps, the last of which may be absent.  Time stamps are natural numbers here. -/
structure Model where
  ID : Nat
  CreatedAt : Nat
  UpdatedAt : Nat
  DeletedAt : Option Nat
  deriving DecidableEq, Repr

/-- The persistent object of one transaction record (lines 15 to 19): the embedded
gorm.Model, the lifecycle status and the serialized per-component try statuses. -/
structure TXRecordPO extends Model where
  Status : Int
  ComponentTryStatuses : String
  deriving DecidableEq, Repr

/-- The zero value `TXRecordPO{}` that lines 41, 51 and 55 pass to Model. -/
def TXRecordPO.zero : TXRecordPO :=
  { ID := 0, CreatedAt := 0, UpdatedAt := 0, DeletedAt := none,
    Status := 0, ComponentTryStatuses := "" }

/-- Method TableName (lines 21 to 23): the table every record is stored in. -/
def TXRecordPO.TableName (_t : TXRecordPO) : String := "tx_record"

/-- The try status of one component (lines 25 to 28). -/
structure ComponentTryStatus where
  ComponentID : String
  TryStatus : String
  deriving DecidableEq, Repr

/-! ## The mapper interface -/

/-- What one library call leaves behind: the handle it returns (`tx`), the value
behind the pointer it was given (`dest`), and the database contents (`store`). -/
structure Exec (DB Store α : Type) where
  tx : DB
  dest : α
  store : Store

/-- The part of the gorm library that txrecord.go calls.  `DB` is the type of
query handles (`*gorm.DB`), `Ctx` of contexts, `Store` of database contents and
`Err` of error values; `Error h = none` stands for a nil Error field. -/
structure Gorm (DB Ctx Store Err : Type) where
  WithContext : DB → Ctx → DB
  Model : DB → TXRecordPO → DB
  Scan : DB → Store → List TXRecordPO → Exec DB Store (List TXRecordPO)
  Create : DB → Store → TXRecordPO → Exec DB Store TXRecordPO
  Updates : DB → Store → TXRecordPO → Exec DB Store TXRecordPO
  Error : DB → Option Err

/-- Modelled from the spec: the declaration of the type QueryOption is not among the
source files.  The spec calls the options optional filters applied to the query,
and line 43 (`db = opt(db)`) uses an option as a function from a query handle to
a query handle. -/
abbrev QueryOption (DB : Type) : Type := DB → DB

/-! ## The data-access object (txrecord.go lines 30 to 56) -/

/-- The data-access object (lines 30 to 32): it holds one database handle. -/
structure TXRecordDAO (DB : Type) where
  db : DB

/-- Constructor NewTXRecordDAO (lines 34 to 38). -/
def NewTXRecordDAO {DB : Type} (db : DB) : TXRecordDAO DB :=
  { db := db }

/-- The order in which a return statement evaluates a plain operand (a variable or
a field read through a pointer) and a method call that writes to that operand.
The Go compiler evaluates the calls of the statement into temporaries and reads
the plain operands afterwards: `callFirst` is the order of the compiled program.
The Go language specification orders the calls of a statement among themselves
but not relative to plain operands; `operandFirst` is the order it leaves open
besides. -/
inductive EvalOrder where
  | operandFirst
  | callFirst
  deriving DecidableEq, Repr

/-- The base query of every method (lines 41, 51 and 55): the handle of the DAO
scoped to the context and then to the TXRecordPO model. -/
def baseQuery {DB Ctx Store Err : Type} (orm : Gorm DB Ctx Store Err)
    (t : TXRecordDAO DB) (ctx : Ctx) : DB :=
  orm.Model (orm.WithContext t.db ctx) TXRecordPO.zero

/-- The loop of lines 42 to 44: `for _, opt := range opts { db = opt(db) }`. -/
def applyOptions {DB : Type} (db : DB) : List (QueryOption DB) → DB
  | [] => db
  | opt :: rest => applyOptions (opt db) rest

/-- Lines 41 to 44 of GetTXRecords: the query that is handed to Scan. -/
def buildQuery {DB Ctx Store Err : Type} (orm : Gorm DB Ctx Store Err)
    (t : TXRecordDAO DB) (ctx : Ctx) (opts : List (QueryOption DB)) : DB :=
  applyOptions (baseQuery orm t ctx) opts

/-- What a call of GetTXRecords yields: its two results, and the receiver and the
database after the call. -/
structure GetOutcome (DB Store Err : Type) where
  records : List TXRecordPO
  err : Option Err
  dao : TXRecordDAO DB
  store : Store

/-- Method GetTXRecords (lines 40 to 48).  The local `records` starts as the nil
slice and Scan is given its address.  In the compiled program (`callFirst`) the
return statement runs the Scan call and then reads `records`, so it returns what
Scan wrote; the branch `operandFirst` reads `records` before the call. -/
def GetTXRecords {DB Ctx Store Err : Type} (orm : Gorm DB Ctx Store Err)
    (ord : EvalOrder) (t : TXRecordDAO DB) (store : Store) (ctx : Ctx)
    (opts : List (QueryOption DB)) : GetOutcome DB Store Err :=
  let db := buildQuery orm t ctx opts
  let records : List TXRecordPO := []
  let scan := orm.Scan db store records
  match ord with
  | EvalOrder.operandFirst =>
      { records := records, err := orm.Error scan.tx, dao := t, store := scan.store }
  | EvalOrder.callFirst =>
      { records := scan.dest, err := orm.Error scan.tx, dao := t, store := scan.store }

/-- What a call of CreateTXRecord yields: its two results, the record behind the
pointer argument after the call, and the receiver and the database after it. -/
structure CreateOutcome (DB Store Err : Type) where
  id : Nat
  err : Option Err
  record : TXRecordPO
  dao : TXRecordDAO DB
  store : Store

/-- Method CreateTXRecord (lines 50 to 52).  Create is given the pointer `record`
and may write through it.  In the compiled program (`callFirst`) the return
statement runs the Create call and then reads `record.ID`, so it returns the ID
the record has after the call; the branch `operandFirst` reads the field before
the call. -/
def CreateTXRecord {DB Ctx Store Err : Type} (orm : Gorm DB Ctx Store Err)
    (ord : EvalOrder) (t : TXRecordDAO DB) (store : Store) (ctx : Ctx)
    (record : TXRecordPO) : CreateOutcome DB Store Err :=
  let created := orm.Create (baseQuery orm t ctx) store record
  match ord with
  | EvalOrder.operandFirst =>
      { id := record.ID, err := orm.Error created.tx, record := created.dest,
        dao := t, store := created.store }
  | EvalOrder.callFirst =>
      { id := created.dest.ID, err := orm.Error created.tx, record := created.dest,
        dao := t, store := created.store }

/-- What a call of UpdateTXRecord yields: its result, the record behind the pointer
argument after the call, and the receiver and the database after it. -/
structure UpdateOutcome (DB Store Err : Type) where
  err : Option Err
  record : TXRecordPO
  dao : TXRecordDAO DB
  store : Store

/-- Method UpdateTXRecord (lines 54 to 56). -/
def UpdateTXRecord {DB Ctx Store Err : Type} (orm : Gorm DB Ctx Store Err)
    (t : TXRecordDAO DB) (store : Store) (ctx : Ctx) (record : TXRecordPO) :
    UpdateOutcome DB Store Err :=
  let updated := orm.Updates (baseQuery orm t ctx) store record
  { err := orm.Error updated.tx, record := updated.dest, dao := t,
    store := updated.store }

/-! ## Sequences of calls on one DAO -/

/-- One call of a method of the DAO, with its arguments. -/
inductive Call (DB Ctx : Type) where
  | get (ctx : Ctx) (opts : List (QueryOption DB))
  | create (ctx : Ctx) (record : TXRecordPO)
  | update (ctx : Ctx) (record : TXRecordPO)

/-- The receiver and the database between two calls. -/
structure World (DB Store : Type) where
  dao : TXRecordDAO DB
  store : Store

/-- The effect of one call on the receiver and the database. -/
def step {DB Ctx Store Err : Type} (orm : Gorm DB Ctx Store Err) (ord : EvalOrder)
    (w : World DB Store) : Call DB Ctx → World DB Store
  | Call.get ctx opts =>
      let r := GetTXRecords orm ord w.dao w.store ctx opts
      { dao := r.dao, store := r.store }
  | Call.create ctx record =>
      let r := CreateTXRecord orm ord w.dao w.store ctx record
      { dao := r.dao, store := r.store }
  | Call.update ctx record =>
      let r := UpdateTXRecord orm w.dao w.store ctx record
      { dao := r.dao, store := r.store }

/-- The effect of a sequence of calls, first to last. -/
def run {DB Ctx Store Err : Type} (orm : Gorm DB Ctx Store Err) (ord : EvalOrder)
    (w : World DB Store) : List (Call DB Ctx) → World DB Store
  | [] => w
  | c :: rest => run orm ord (step orm ord w c) rest

/-! ## A small in-memory mapper

A toy mapper over a list of rows, used only to evaluate the methods on concrete
inputs.  It follows the documented behaviour of the library in outline (Create
assigns the identifier and stamps the record, soft-deleted rows are not scanned,
a duplicate key is refused, an update without a condition is refused), but it is
not a model of the library and no claim rests on it.  Context `0` plays the role
of a cancelled context: every statement run under it fails and changes nothing. -/

/-- A query handle of the in-memory mapper: the context it is scoped to, the table
of its model, the status values its filters ask for, and its Error field. -/
structure MemHandle where
  ctx : Nat
  table : String
  statuses : List Int
  Error : Option String
  deriving DecidableEq, Repr

/-- The contents of the in-memory database: the rows of the table, the next
identifier the table assigns, and the current time. -/
structure MemStore where
  rows : List TXRecordPO
  nextID : Nat
  now : Nat
  deriving DecidableEq, Repr

/-- A row passes a handle when it is not soft-deleted and its status equals every
status the handle asks for. -/
def memMatches (h : MemHandle) (r : TXRecordPO) : Bool :=
  r.DeletedAt.isNone && h.statuses.all (fun s => r.Status == s)

/-- The handle after a statement that failed with the given message. -/
def memFailed (h : MemHandle) (msg : String) : MemHandle :=
  { h with Error := some msg }

/-- The handle after a statement that ran. -/
def memDone (h : MemHandle) : MemHandle :=
  { h with Error := none }

/-- The in-memory mapper.  Scan writes the matching rows to its destination.
Create refuses a key that is already stored; otherwise it assigns the next
identifier to a record whose ID is zero, stamps the time fields that are zero and
appends the record.  Updates refuses a handle without a condition; otherwise it
overwrites the status columns of the matching rows. -/
def memOrm : Gorm MemHandle Nat MemStore String where
  WithContext h c := { h with ctx := c }
  Model h po := { h with table := po.TableName }
  Scan h s dest :=
    if h.ctx = 0 then { tx := memFailed h "context canceled", dest := dest, store := s }
    else { tx := memDone h, dest := s.rows.filter (memMatches h), store := s }
  Create h s r :=
    if h.ctx = 0 then { tx := memFailed h "context canceled", dest := r, store := s }
    else if r.ID != 0 && s.rows.any (fun x => x.ID == r.ID) then
      { tx := memFailed h "duplicate key", dest := r, store := s }
    else
      let row : TXRecordPO :=
        { r with
          ID := if r.ID = 0 then s.nextID else r.ID
          CreatedAt := if r.CreatedAt = 0 then s.now else r.CreatedAt
          UpdatedAt := if r.UpdatedAt = 0 then s.now else r.UpdatedAt }
      { tx := memDone h, dest := row,
        store := { s with rows := s.rows ++ [row], nextID := max s.nextID row.ID + 1 } }
  Updates h s r :=
    if h.ctx = 0 then { tx := memFailed h "context canceled", dest := r, store := s }
    else if h.statuses.isEmpty then
      { tx := memFailed h "WHERE conditions required", dest := r, store := s }
    else
      { tx := memDone h, dest := r,
        store := { s with rows := s.rows.map (fun x =>
          if memMatches h x then
            { x with
              Status := r.Status
              ComponentTryStatuses := r.ComponentTryStatuses
              UpdatedAt := s.now }
          else x) } }
  Error h := h.Error

/-- A query option of the in-memory mapper: keep the rows with status `s`. -/
def memWhereStatus (s : Int) : QueryOption MemHandle :=
  fun h => { h with statuses := h.statuses ++ [s] }

/-- The root handle a DAO over the in-memory mapper is built from. -/
def memRoot : MemHandle :=
  { ctx := 1, table := "", statuses := [], Error := none }

/-- A hanging record with identifier 4 that was soft-deleted at time 20. -/
def rowFour : TXRecordPO :=
  { ID := 4, CreatedAt := 9, UpdatedAt := 9, DeletedAt := some 20,
    Status := HangingStatus, ComponentTryStatuses := "a:hanging" }

/-- A hanging record with identifier 5. -/
def rowFive : TXRecordPO :=
  { ID := 5, CreatedAt := 10, UpdatedAt := 10, DeletedAt := none,
    Status := HangingStatus, ComponentTryStatuses := "a:hanging" }

/-- A successful record with identifier 6. -/
def rowSix : TXRecordPO :=
  { ID := 6, CreatedAt := 11, UpdatedAt := 12, DeletedAt := none,
    Status := SuccessfulStatus, ComponentTryStatuses := "a:successful" }

/-- A database holding the three rows at time 30; the next identifier it assigns
is 7. -/
def memStore : MemStore :=
  { rows := [rowFour, rowFive, rowSix], nextID := 7, now := 30 }

/-- A record that has not been inserted yet: its ID and time stamps are zero. -/
def freshRecord : TXRecordPO :=
  { ID := 0, CreatedAt := 0, UpdatedAt := 0, DeletedAt := none,
    Status := HangingStatus, ComponentTryStatuses := "b:hanging" }

/-- The record `freshRecord` once `memStore` has assigned it identifier 7 and
stamped it with time 30. -/
def insertedRecord : TXRecordPO :=
  { ID := 7, CreatedAt := 30, UpdatedAt := 30, DeletedAt := none,
    Status := HangingStatus, ComponentTryStatuses := "b:hanging" }

end Example

namespace Example

/-! ## Auxiliary facts -/

/-- The option loop is a left fold of function application. -/
theorem applyOptions_eq_foldl {DB : Type} (opts : List (QueryOption DB)) (db : DB) :
    applyOptions db opts = List.foldl (fun q opt => opt q) db opts := by
  induction opts generalizing db with
  | nil => rfl
  | cons opt rest ih => simp only [applyOptions, List.foldl_cons, ih]

/-- Running the loop over a concatenation runs it over the first list and then,
from the query so obtained, over the second. -/
theorem applyOptions_append {DB : Type} (xs ys : List (QueryOption DB)) (db : DB) :
    applyOptions db (xs ++ ys) = applyOptions (applyOptions db xs) ys := by
  simp only [applyOptions_eq_foldl, List.foldl_append]

/-- GetTXRecords hands the receiver back as it got it. -/
theorem GetTXRecords_dao {DB Ctx Store Err : Type} (orm : Gorm DB Ctx Store Err)
    (ord : EvalOrder) (t : TXRecordDAO DB) (store : Store) (ctx : Ctx)
    (opts : List (QueryOption DB)) :
    (GetTXRecords orm ord t store ctx opts).dao = t := by
  cases ord <;> rfl

/-- CreateTXRecord hands the receiver back as it got it. -/
theorem CreateTXRecord_dao {DB Ctx Store Err : Type} (orm : Gorm DB Ctx Store Err)
    (ord : EvalOrder) (t : TXRecordDAO DB) (store : Store) (ctx : Ctx)
    (record : TXRecordPO) :
    (CreateTXRecord orm ord t store ctx record).dao = t := by
  cases ord <;> rfl

/-- One call leaves the receiver as it was. -/
theorem step_dao {DB Ctx Store Err : Type} (orm : Gorm DB Ctx Store Err)
    (ord : EvalOrder) (w : World DB Store) (c : Call DB Ctx) :
    (step orm ord w c).dao = w.dao := by
  cases c with
  | get ctx opts => exact GetTXRecords_dao orm ord w.dao w.store ctx opts
  | create ctx record => exact CreateTXRecord_dao orm ord w.dao w.store ctx record
  | update ctx record => rfl

/-- A sequence of calls leaves the receiver as it was. -/
theorem run_dao {DB Ctx Store Err : Type} (orm : Gorm DB Ctx Store Err)
    (ord : EvalOrder) (calls : List (Call DB Ctx)) (w : World DB Store) :
    (run orm ord w calls).dao = w.dao := by
  induction calls generalizing w with
  | nil => rfl
  | cons c rest ih => simp only [run, ih, step_dao]

/-- In either evaluation order the error GetTXRecords returns is the Error field
of the handle Scan returned for the built query. -/
theorem GetTXRecords_err {DB Ctx Store Err : Type} (orm : Gorm DB Ctx Store Err)
    (ord : EvalOrder) (t : TXRecordDAO DB) (store : Store) (ctx : Ctx)
    (opts : List (QueryOption DB)) :
    (GetTXRecords orm ord t store ctx opts).err
      = orm.Error (orm.Scan (buildQuery orm t ctx opts) store []).tx := by
  cases ord <;> rfl

/-- When the Scan call runs before `records` is read, the records returned are
what Scan wrote to its destination. -/
theorem GetTXRecords_records_callFirst {DB Ctx Store Err : Type}
    (orm : Gorm DB Ctx Store Err) (t : TXRecordDAO DB) (store : Store) (ctx : Ctx)
    (opts : List (QueryOption DB)) :
    (GetTXRecords orm EvalOrder.callFirst t store ctx opts).records
      = (orm.Scan (buildQuery orm t ctx opts) store []).dest := rfl

/-- When `records` is read before the Scan call runs, the records returned are the
nil slice, whatever Scan writes. -/
theorem GetTXRecords_records_operandFirst {DB Ctx Store Err : Type}
    (orm : Gorm DB Ctx Store Err) (t : TXRecordDAO DB) (store : Store) (ctx : Ctx)
    (opts : List (QueryOption DB)) :
    (GetTXRecords orm EvalOrder.operandFirst t store ctx opts).records = [] := rfl

/-- When the Create call runs before `record.ID` is read, the id returned is the ID
field of the record as Create left it. -/
theorem CreateTXRecord_id_callFirst {DB Ctx Store Err : Type}
    (orm : Gorm DB Ctx Store Err) (t : TXRecordDAO DB) (store : Store) (ctx : Ctx)
    (record : TXRecordPO) :
    (CreateTXRecord orm EvalOrder.callFirst t store ctx record).id
      = (CreateTXRecord orm EvalOrder.callFirst t store ctx record).record.ID := rfl

/-- When `record.ID` is read before the Create call runs, the id returned is the ID
field the record carried into the call. -/
theorem CreateTXRecord_id_operandFirst {DB Ctx Store Err : Type}
    (orm : Gorm DB Ctx Store Err) (t : TXRecordDAO DB) (store : Store) (ctx : Ctx)
    (record : TXRecordPO) :
    (CreateTXRecord orm EvalOrder.operandFirst t store ctx record).id = record.ID := rfl

/-- On the in-memory mapper three options, one of them given twice, reach the
scanned query once per occurrence and in the order given. -/
theorem buildQuery_sample :
    buildQuery memOrm (NewTXRecordDAO memRoot) 3
        [memWhereStatus 1, memWhereStatus 2, memWhereStatus 1]
      = { ctx := 3, table := "tx_record", statuses := [1, 2, 1], Error := none } := by
  decide

/-- On the in-memory mapper, with the option that asks for hanging rows, the
compiled GetTXRecords returns row 5 alone (row 4 is soft-deleted, row 6 is
successful) and a nil error. -/
theorem GetTXRecords_sample :
    (GetTXRecords memOrm EvalOrder.callFirst (NewTXRecordDAO memRoot) memStore 1
        [memWhereStatus HangingStatus]).records = [rowFive]
    ∧ (GetTXRecords memOrm EvalOrder.callFirst (NewTXRecordDAO memRoot) memStore 1
        [memWhereStatus HangingStatus]).err = none := by
  decide

/-- On the in-memory mapper, inserting a record whose ID is 0 into a table that
assigns 7 next succeeds and the compiled CreateTXRecord returns 7; inserting a
record whose key is already stored fails and nothing is assigned. -/
theorem CreateTXRecord_sample :
    (CreateTXRecord memOrm EvalOrder.callFirst (NewTXRecordDAO memRoot) memStore 1
        freshRecord).id = 7
    ∧ (CreateTXRecord memOrm EvalOrder.callFirst (NewTXRecordDAO memRoot) memStore 1
        freshRecord).record = insertedRecord
    ∧ (CreateTXRecord memOrm EvalOrder.callFirst (NewTXRecordDAO memRoot) memStore 1
        freshRecord).err = none
    ∧ (CreateTXRecord memOrm EvalOrder.callFirst (NewTXRecordDAO memRoot) memStore 1
        rowFive).err = some "duplicate key"
    ∧ (CreateTXRecord memOrm EvalOrder.callFirst (NewTXRecordDAO memRoot) memStore 1
        rowFive).id = 5 := by
  decide

/-- On the in-memory mapper a cancelled context makes Create fail, an update on
the base query is refused for want of a condition, and both methods return the
error of the mapper. -/
theorem failing_statement_sample :
    (CreateTXRecord memOrm EvalOrder.callFirst (NewTXRecordDAO memRoot) memStore 0
        freshRecord).err = some "context canceled"
    ∧ (UpdateTXRecord memOrm (NewTXRecordDAO memRoot) memStore 0 rowFive).err
        = some "context canceled"
    ∧ (UpdateTXRecord memOrm (NewTXRecordDAO memRoot) memStore 1 rowFive).err
        = some "WHERE conditions required" := by
  decide

/-! ## The claims -/

/-- Claim C1.  For every mapper, evaluation order, DAO, database, context and list
of options, the query GetTXRecords hands to Scan is the left fold of the options
over the base query (the handle of the DAO scoped to the context and to the
TXRecordPO model): each option is applied once, in the order given.  The error and
the database GetTXRecords leaves are those of Scan on that very query, and with no
option the query is the base query itself. -/
theorem GetTXRecords_scans_folded_query {DB Ctx Store Err : Type}
    (orm : Gorm DB Ctx Store Err) (ord : EvalOrder) (t : TXRecordDAO DB)
    (store : Store) (ctx : Ctx) (opts : List (QueryOption DB)) :
    buildQuery orm t ctx opts
        = List.foldl (fun q opt => opt q)
            (orm.Model (orm.WithContext t.db ctx) TXRecordPO.zero) opts
    ∧ (GetTXRecords orm ord t store ctx opts).err
        = orm.Error (orm.Scan (List.foldl (fun q opt => opt q)
            (orm.Model (orm.WithContext t.db ctx) TXRecordPO.zero) opts) store []).tx
    ∧ (GetTXRecords orm ord t store ctx opts).store
        = (orm.Scan (List.foldl (fun q opt => opt q)
            (orm.Model (orm.WithContext t.db ctx) TXRecordPO.zero) opts) store []).store
    ∧ buildQuery orm t ctx [] = orm.Model (orm.WithContext t.db ctx) TXRecordPO.zero := by
  have hq : buildQuery orm t ctx opts
      = List.foldl (fun q opt => opt q)
          (orm.Model (orm.WithContext t.db ctx) TXRecordPO.zero) opts :=
    applyOptions_eq_foldl opts (baseQuery orm t ctx)
  refine ⟨hq, ?_, ?_, rfl⟩
  · rw [← hq]
    exact GetTXRecords_err orm ord t store ctx opts
  · rw [← hq]
    cases ord <;> rfl

/-- Claim C2.  The three lifecycle status constants are the integers 1, 2 and 3,
they are pairwise distinct, and no integer equals two of them. -/
theorem status_constants_distinct :
    HangingStatus = 1 ∧ SuccessfulStatus = 2 ∧ FailedStatus = 3
    ∧ HangingStatus ≠ SuccessfulStatus
    ∧ HangingStatus ≠ FailedStatus
    ∧ SuccessfulStatus ≠ FailedStatus
    ∧ (∀ s : Int, ¬ (s = HangingStatus ∧ s = SuccessfulStatus)
        ∧ ¬ (s = HangingStatus ∧ s = FailedStatus)
        ∧ ¬ (s = SuccessfulStatus ∧ s = FailedStatus)) := by
  refine ⟨rfl, rfl, rfl, by decide, by decide, by decide, ?_⟩
  intro s
  simp only [HangingStatus, SuccessfulStatus, FailedStatus]
  omega

/-- Claim C3.  For every mapper, evaluation order, DAO, database, context and
record, whatever the Status of the record and whatever the database holds:
CreateTXRecord calls Create on the base query with the record as given, and the
error, the record behind the pointer and the database it leaves are exactly those
of that Create call; UpdateTXRecord does the same with Updates.  Neither method
produces an error of its own. -/
theorem create_update_pass_through {DB Ctx Store Err : Type}
    (orm : Gorm DB Ctx Store Err) (ord : EvalOrder) (t : TXRecordDAO DB)
    (store : Store) (ctx : Ctx) (record : TXRecordPO) :
    (CreateTXRecord orm ord t store ctx record).err
        = orm.Error (orm.Create
            (orm.Model (orm.WithContext t.db ctx) TXRecordPO.zero) store record).tx
    ∧ (CreateTXRecord orm ord t store ctx record).record
        = (orm.Create
            (orm.Model (orm.WithContext t.db ctx) TXRecordPO.zero) store record).dest
    ∧ (CreateTXRecord orm ord t store ctx record).store
        = (orm.Create
            (orm.Model (orm.WithContext t.db ctx) TXRecordPO.zero) store record).store
    ∧ (UpdateTXRecord orm t store ctx record).err
        = orm.Error (orm.Updates
            (orm.Model (orm.WithContext t.db ctx) TXRecordPO.zero) store record).tx
    ∧ (UpdateTXRecord orm t store ctx record).record
        = (orm.Updates
            (orm.Model (orm.WithContext t.db ctx) TXRecordPO.zero) store record).dest
    ∧ (UpdateTXRecord orm t store ctx record).store
        = (orm.Updates
            (orm.Model (orm.WithContext t.db ctx) TXRecordPO.zero) store record).store := by
  cases ord <;> exact ⟨rfl, rfl, rfl, rfl, rfl, rfl⟩

/-- Claim C4.  For every mapper, DAO, database, context and list of options, the
compiled GetTXRecords passes the scan through: the error it returns is the Error
field of the handle Scan returned for the final query, so it is nil exactly when
the scan reported no error, and the records it returns are the list Scan wrote to
the result slice, element for element. -/
theorem GetTXRecords_passes_scan_through {DB Ctx Store Err : Type}
    (orm : Gorm DB Ctx Store Err) (t : TXRecordDAO DB) (store : Store) (ctx : Ctx)
    (opts : List (QueryOption DB)) :
    (GetTXRecords orm EvalOrder.callFirst t store ctx opts).err
        = orm.Error (orm.Scan (buildQuery orm t ctx opts) store []).tx
    ∧ ((GetTXRecords orm EvalOrder.callFirst t store ctx opts).err = none
        ↔ orm.Error (orm.Scan (buildQuery orm t ctx opts) store []).tx = none)
    ∧ (GetTXRecords orm EvalOrder.callFirst t store ctx opts).records
        = (orm.Scan (buildQuery orm t ctx opts) store []).dest :=
  ⟨rfl, Iff.rfl, rfl⟩

/-- Claim C5.  TableName returns the string tx_record for every record, whatever
its ID, time stamps, Status and ComponentTryStatuses. -/
theorem TableName_constant (t : TXRecordPO) : t.TableName = "tx_record" := rfl

/-- Claim C6.  For every mapper, DAO, database, context and record, the id the
compiled CreateTXRecord returns is the ID field of the record as the Create call
on the base query left it, which is the ID the record has after CreateTXRecord;
it is not read from the record as it was passed in.  This holds whether or not
the insert succeeds, so in particular for every insert that does. -/
theorem CreateTXRecord_returns_inserted_id {DB Ctx Store Err : Type}
    (orm : Gorm DB Ctx Store Err) (t : TXRecordDAO DB) (store : Store) (ctx : Ctx)
    (record : TXRecordPO) :
    (CreateTXRecord orm EvalOrder.callFirst t store ctx record).id
        = (orm.Create
            (orm.Model (orm.WithContext t.db ctx) TXRecordPO.zero) store record).dest.ID
    ∧ (CreateTXRecord orm EvalOrder.callFirst t store ctx record).id
        = (CreateTXRecord orm EvalOrder.callFirst t store ctx record).record.ID :=
  ⟨rfl, rfl⟩

/-- Claim C7.  NewTXRecordDAO yields a DAO holding the handle it was given.  After
any sequence of GetTXRecords, CreateTXRecord and UpdateTXRecord calls, with any
arguments, the DAO still holds that handle, and the query a further GetTXRecords
call builds is the fold of the options of that call alone over the base query of
the original handle: nothing of the earlier calls enters it. -/
theorem dao_handle_fixed {DB Ctx Store Err : Type} (orm : Gorm DB Ctx Store Err)
    (ord : EvalOrder) (db : DB) (store : Store) (calls : List (Call DB Ctx))
    (ctx : Ctx) (opts : List (QueryOption DB)) :
    (NewTXRecordDAO db).db = db
    ∧ (run orm ord { dao := NewTXRecordDAO db, store := store } calls).dao.db = db
    ∧ buildQuery orm
          (run orm ord { dao := NewTXRecordDAO db, store := store } calls).dao ctx opts
        = List.foldl (fun q opt => opt q)
            (orm.Model (orm.WithContext db ctx) TXRecordPO.zero) opts := by
  have hdao : (run orm ord { dao := NewTXRecordDAO db, store := store } calls).dao
      = NewTXRecordDAO db :=
    run_dao orm ord calls { dao := NewTXRecordDAO db, store := store }
  refine ⟨rfl, ?_, ?_⟩
  · rw [hdao]
    rfl
  · rw [hdao]
    exact applyOptions_eq_foldl opts (baseQuery orm (NewTXRecordDAO db) ctx)

end Example
